import Mathlib

/-
Shallow embedding of the katana repository pieces under verification:
  - src/katana/repl/__init__.py : MonitoringEventHandler, ReplMonitor.on_flag,
    Repl.update_prompt, Repl._target_stop, Repl.generate_solution
  - src/katana/units/raw/base85_decode.py : Unit.__init__, Unit.evaluate
Pure data is translated directly; stateful code becomes explicit state
passing; side effects (user alerts, clipboard writes, engine calls) become
explicit effect lists; exceptional control flow becomes flags/Option values.
String formatting with terminal colours is abstracted to structured lines.
-/

namespace Katana

mutual
/-- KTarget models the Target objects the repl manipulates (katana.target is
not under src; its fields are modelled from their use in src/katana/repl and
from the spec data model): a hash summary string, printability of the raw
content, the completed flag, and the parent link. As in the source walk
`link = link.target.parent`, a target's parent is the producing unit
(none for root targets). -/
inductive KTarget : Type where
  | mk : String → Bool → Bool → Option KUnit → KTarget

/-- KUnit models the Unit objects the repl manipulates: a unit name and the
target it evaluates (`unit.target`). -/
inductive KUnit : Type where
  | mk : String → KTarget → KUnit
end

/-- Field accessor: target hash summary (`target.hash.hexdigest()`). -/
def KTarget.hash : KTarget → String
  | .mk h _ _ _ => h

/-- Field accessor: `target.is_printable`. -/
def KTarget.is_printable : KTarget → Bool
  | .mk _ p _ _ => p

/-- Field accessor: `target.completed`. -/
def KTarget.completed : KTarget → Bool
  | .mk _ _ c _ => c

/-- Field accessor: `target.parent` (the unit that produced this target). -/
def KTarget.parent : KTarget → Option KUnit
  | .mk _ _ _ par => par

/-- Functional update of the completed field (`other.completed = True`). -/
def KTarget.withCompleted : KTarget → Bool → KTarget
  | .mk h p _ par, b => .mk h p b par

/-- Field accessor: unit name (how the unit renders in the chain output). -/
def KUnit.name : KUnit → String
  | .mk n _ => n

/-- Field accessor: `unit.target`. -/
def KUnit.target : KUnit → KTarget
  | .mk _ t => t

mutual
/-- Chain walk shared by ReplMonitor.on_flag and Repl.generate_solution:
`link = unit; while link is not None: chain.append(link); link =
link.target.parent`. Collects units leaf-first (reverse direction). The
inductive KTarget/KUnit types make the walk structurally recursive, which is
exactly the finite acyclic parent chain the spec guarantees. -/
def KUnit.chainRev : KUnit → List KUnit
  | .mk n t => .mk n t :: KTarget.chainRevFrom t

/-- Continuation of the chain walk from a target: follow `target.parent`. -/
def KTarget.chainRevFrom : KTarget → List KUnit
  | .mk _ _ _ none => []
  | .mk _ _ _ (some p) => KUnit.chainRev p
end

/-- The reversed chain (`chain = chain[::-1]`): ordered root to leaf. -/
def buildChain (u : KUnit) : List KUnit :=
  (KUnit.chainRev u).reverse

/-- One line of the rendered solution: either a chain step showing
`unit(unit.target)` as a (unit-name, target-hash) pair, or the final flag
line. Colour codes and indentation of the log string are abstracted away. -/
inductive SolLine where
  | step : String → String → SolLine
  | flagLine : String → SolLine
deriving DecidableEq

/-- Repl.generate_solution, with the log-entry string abstracted to its list
of lines: one step line per chain entry (first entry formatted like the
rest up to colour/arrows), terminated by the flag value line. -/
def generate_solution (u : KUnit) (flag : String) : List SolLine :=
  (buildChain u).map (fun l => SolLine.step l.name l.target.hash)
    ++ [SolLine.flagLine flag]

/-- Side effects performed by ReplMonitor.on_flag, in program order:
optional CTF auto-submission, writing the flag to the paste buffer, and the
async alert showing the chain log entry. -/
inductive Effect where
  | ctfSubmit : String → Effect
  | clipboard : String → Effect
  | alert : List SolLine → Effect
deriving DecidableEq

/-- Monitor-side state read and written by ReplMonitor.on_flag: the recorded
flag list `self.flags` of (unit-name, flag-value) pairs, and whether the
`ctf`/`auto-submit` configuration is active (the manager configuration and
ctf target table are abstracted to this single switch). -/
structure ReplState where
  flags : List (String × String)
  autoSubmit : Bool
deriving DecidableEq

/-- ReplMonitor.on_flag. The duplicate check is the source condition
`len([f for f in self.flags if f[1] == flag]) > 0`. Recording the flag
(the `super().on_flag` call) is modelled from the spec: the Monitor appends
the (unit, flag) pair to its append-only flag list; katana.monitor is not
under src. The chain walk duplicates Repl.generate_solution, so the same
embedding is reused for the log entry. -/
def on_flag (s : ReplState) (u : KUnit) (flag : String) :
    ReplState × List Effect :=
  if (s.flags.filter (fun f => f.2 == flag)).length > 0 then
    (s, [])
  else
    let s2 : ReplState := { s with flags := s.flags ++ [(u.name, flag)] }
    let entry : List SolLine := generate_solution u flag
    let ctfEff : List Effect :=
      if s.autoSubmit then [Effect.ctfSubmit flag] else []
    (s2, ctfEff ++ [Effect.clipboard flag, Effect.alert entry])

/-- Prompt state rendered by Repl.update_prompt: waiting (yellow) or
running (green). -/
inductive PromptState where
  | waiting
  | running
deriving DecidableEq

/-- Snapshot of the manager observables Repl.update_prompt reads:
`manager.barrier.n_waiting`, `len(manager.threads)` and
`manager.work.qsize()` (the manager itself is not under src; these are the
three values the prompt code consumes). -/
structure ManagerView where
  n_waiting : Nat
  nthreads : Nat
  qsize : Nat
deriving DecidableEq

/-- The state selection in Repl.update_prompt:
`if self.manager.barrier.n_waiting == len(self.manager.threads)` then
waiting else running. The queue size is only interpolated into the prompt
text, never tested. -/
def update_prompt_state (m : ManagerView) : PromptState :=
  if m.n_waiting = m.nthreads then PromptState.waiting else PromptState.running

/-- Spec-side definition, following the words of the claim: global idle iff
the count of workers waiting on the barrier equals the pool size AND the
work queue size is zero. Used to compare against update_prompt_state. -/
def spec_idle (m : ManagerView) : Bool :=
  m.n_waiting == m.nthreads && m.qsize == 0

/-- Outcome of the base85 Unit constructor: either the distinguished
NotApplicable signal with its message, or a constructed unit ready for
evaluation. -/
inductive InitResult where
  | notApplicable : String → InitResult
  | ok : InitResult
deriving DecidableEq

/-- Unit.__init__ of src/katana/units/raw/base85_decode.py: raise
NotApplicable("not printable data") when the target is not printable,
otherwise construction succeeds (BaseUnit.__init__ is not under src;
modelled from the spec: the applicability check is pure and must not fail). -/
def base85_init (t : KTarget) : InitResult :=
  if t.is_printable then InitResult.ok
  else InitResult.notApplicable "not printable data"

/-- Argument of a `katana.recurse` call from the base85 unit: either the
decoded bytes or the filename of a written artifact. -/
inductive RecurseArg where
  | bytes : List Nat → RecurseArg
  | file : String → RecurseArg
deriving DecidableEq

/-- Environment of Unit.evaluate, abstracting the external library calls on
the decoded content: b85decode (none models the UnicodeDecodeError /
binascii.Error / ValueError branch), utilities.isprintable,
magic.from_buffer combined with utilities.is_good_magic, and whether the
artifact handle's write call raises. -/
structure Base85Env where
  b85decode : List Nat → Option (List Nat)
  isprintable : List Nat → Bool
  is_good_magic : List Nat → Bool
  writeFails : Bool

/-- Observable outcome of one Unit.evaluate run: the add_results calls, the
recurse calls, whether create_artifact ran, whether the artifact handle was
closed, and whether an exception escaped evaluate. -/
structure EvalEffects where
  results : List (List Nat)
  recursions : List RecurseArg
  artifactCreated : Bool
  handleClosed : Bool
  raised : Bool
deriving DecidableEq

/-- Unit.evaluate of src/katana/units/raw/base85_decode.py, with exceptional
control flow made explicit. Decode failure is swallowed by the except
clause. On printable decode output the unit recurses on and reports the
decoded bytes. On non-printable output with good file magic it reports the
bytes, creates the artifact, writes, closes and recurses on the filename;
when the write raises, execution stops there: the handle is not closed and
the exception (not one of the caught decode errors) escapes. -/
def base85_evaluate (env : Base85Env) (raw : List Nat) : EvalEffects :=
  match env.b85decode raw with
  | none =>
      { results := [], recursions := [], artifactCreated := false
        handleClosed := false, raised := false }
  | some result =>
      if env.isprintable result then
        { results := [result], recursions := [RecurseArg.bytes result]
          artifactCreated := false, handleClosed := false, raised := false }
      else if env.is_good_magic result then
        if env.writeFails then
          { results := [result], recursions := [], artifactCreated := true
            handleClosed := false, raised := true }
        else
          { results := [result], recursions := [RecurseArg.file "decoded"]
            artifactCreated := true, handleClosed := true, raised := false }
      else
        { results := [], recursions := [], artifactCreated := false
          handleClosed := false, raised := false }

/-- One pass of Repl._target_stop over a single target: if its hash matches
the requested id, an already-completed target is left untouched (only a
message is printed), otherwise its completed flag is set to true. -/
def stopOne (h : String) (t : KTarget) : KTarget :=
  if t.hash == h then
    (if t.completed then t else t.withCompleted true)
  else t

/-- The inner loop of Repl._target_stop: `for other in self.manager.targets`
applied for one requested target id (the loop has no break, so every
matching target is updated). -/
def stopPass (ts : List KTarget) (h : String) : List KTarget :=
  ts.map (stopOne h)

/-- Repl._target_stop: iterate the requested target ids over the manager
target list. The user notification for already-completed targets is output
only and does not change state. -/
def target_stop (hs : List String) (ts : List KTarget) : List KTarget :=
  hs.foldl stopPass ts

/-- Filesystem events watchdog can deliver, by kind (file/directory
creation, modification, deletion, move). FileCreatedEvent is the
fileCreated constructor. -/
inductive FSEvent where
  | fileCreated : String → FSEvent
  | dirCreated : String → FSEvent
  | fileModified : String → FSEvent
  | dirModified : String → FSEvent
  | fileDeleted : String → FSEvent
  | dirDeleted : String → FSEvent
  | fileMoved : String → String → FSEvent
  | dirMoved : String → String → FSEvent
deriving DecidableEq

/-- Actions the monitoring handler can take: queue a new target with the
event's src_path, and alert the user. -/
inductive HandlerAction where
  | queueTarget : String → HandlerAction
  | alert : String → HandlerAction
deriving DecidableEq

/-- MonitoringEventHandler.on_created: return immediately unless the event
is a FileCreatedEvent; otherwise queue the path as a target and alert the
user. -/
def on_created (e : FSEvent) : List HandlerAction :=
  match e with
  | FSEvent.fileCreated p =>
      [HandlerAction.queueTarget p,
       HandlerAction.alert ("new target queued: " ++ p)]
  | _ => []

/-- Modelled from the spec and the watchdog contract (watchdog is an
external collaborator, not under src): the observer dispatches creation
events to on_created; MonitoringEventHandler overrides only on_created, so
modification, deletion and move events hit the inherited no-op handlers. -/
def dispatchEvent (e : FSEvent) : List HandlerAction :=
  match e with
  | FSEvent.fileCreated _ => on_created e
  | FSEvent.dirCreated _ => on_created e
  | _ => []

/-- The targets queued by a list of handler actions. -/
def queuedTargets (acts : List HandlerAction) : List String :=
  acts.filterMap (fun a =>
    match a with
    | HandlerAction.queueTarget p => some p
    | _ => none)

/-- Helper: the fold of stopOne passes over one target. -/
def stopFold (hs : List String) (t : KTarget) : KTarget :=
  hs.foldl (fun a h => stopOne h a) t

/-- Helper: an already-completed target is untouched by stopOne. -/
theorem stopOne_completed_true (h : String) (t : KTarget)
    (hc : t.completed = true) : stopOne h t = t := by
  simp [stopOne, hc]

/-- Helper: withCompleted sets the completed field. -/
theorem withCompleted_completed (t : KTarget) (b : Bool) :
    (t.withCompleted b).completed = b := by
  cases t
  rfl

/-- Helper: a stopFold run either leaves the target untouched or flips its
completed flag from false to true. -/
theorem stopFold_char (hs : List String) (t : KTarget) :
    stopFold hs t = t ∨
      (t.completed = false ∧ (stopFold hs t).completed = true) := by
  induction hs generalizing t with
  | nil => exact Or.inl rfl
  | cons h hs ih =>
    have hstep : stopFold (h :: hs) t = stopFold hs (stopOne h t) := rfl
    by_cases hc : t.completed = true
    · have he : stopOne h t = t := stopOne_completed_true h t hc
      rw [hstep, he]
      exact ih t
    · have hcf : t.completed = false := by
        cases hcc : t.completed
        · rfl
        · exact absurd hcc hc
      by_cases hh : (t.hash == h) = true
      · have he : stopOne h t = t.withCompleted true := by
          simp [stopOne, hh, hcf]
        have hcomp : (stopFold hs (t.withCompleted true)).completed = true := by
          rcases ih (t.withCompleted true) with h1 | h2
          · rw [h1, withCompleted_completed]
          · exact h2.2
        refine Or.inr ⟨hcf, ?_⟩
        rw [hstep, he]
        exact hcomp
      · have he : stopOne h t = t := by simp [stopOne, hh]
        rw [hstep, he]
        exact ih t

/-- Helper: target_stop acts pointwise as stopFold on the target list. -/
theorem target_stop_get (hs : List String) (ts : List KTarget) (i : Nat) :
    (target_stop hs ts)[i]? = (ts[i]?).map (stopFold hs) := by
  induction hs generalizing ts with
  | nil =>
    change ts[i]? = ts[i]?.map (stopFold [])
    cases hx : ts[i]? <;> rfl
  | cons h hs ih =>
    change (target_stop hs (stopPass ts h))[i]? = ts[i]?.map (stopFold (h :: hs))
    rw [ih]
    change (ts.map (stopOne h))[i]?.map (stopFold hs) = _
    rw [List.getElem?_map]
    cases hx : ts[i]? <;> rfl

/-- C1: when a flag with byte-identical value is already recorded in the
monitor flag list, a later on_flag call with that value (whatever unit and
provenance chain delivered it) returns with the state unchanged and
performs no effect: nothing is recorded, printed, submitted or copied. -/
theorem on_flag_duplicate_noop (s : ReplState) (u : KUnit) (flag : String)
    (h : ∃ f ∈ s.flags, f.2 = flag) :
    on_flag s u flag = (s, []) := by
  obtain ⟨f, hmem, hval⟩ := h
  have hfil : f ∈ s.flags.filter (fun g => g.2 == flag) :=
    List.mem_filter.mpr ⟨hmem, by simp [hval]⟩
  have hlen : (s.flags.filter (fun g => g.2 == flag)).length > 0 :=
    List.length_pos_of_mem hfil
  unfold on_flag
  rw [if_pos hlen]

/-- Witness for C1 at a concrete state holding the flag FLAG already,
reported again by a different unit. -/
theorem on_flag_duplicate_noop_w :
    (∃ f ∈ ({ flags := [("unitA", "FLAG")], autoSubmit := false } :
        ReplState).flags, f.2 = "FLAG") ∧
    on_flag { flags := [("unitA", "FLAG")], autoSubmit := false }
        (KUnit.mk "unitB" (KTarget.mk "h0" true false none)) "FLAG" =
      ({ flags := [("unitA", "FLAG")], autoSubmit := false }, []) :=
  ⟨⟨("unitA", "FLAG"), by simp, rfl⟩,
   on_flag_duplicate_noop _ _ _ ⟨("unitA", "FLAG"), by simp, rfl⟩⟩

/-- C2: for a three-level chain root to A to B where the unit running on B
reports the flag, the reconstructed chain is ordered root to leaf (the
reverse of the walk direction), has length 3 with the procedure names of
the units that produced A and B, and the produced solution is terminated by
the flag value. -/
theorem generate_solution_three_level
    (nA nB nF rH aH bH : String) (p1 p2 p3 c1 c2 c3 : Bool) (flag : String) :
    buildChain
        (KUnit.mk nF (KTarget.mk bH p3 c3 (some (KUnit.mk nB
          (KTarget.mk aH p2 c2 (some (KUnit.mk nA
            (KTarget.mk rH p1 c1 none)))))))) =
      [KUnit.mk nA (KTarget.mk rH p1 c1 none),
       KUnit.mk nB (KTarget.mk aH p2 c2 (some (KUnit.mk nA
         (KTarget.mk rH p1 c1 none)))),
       KUnit.mk nF (KTarget.mk bH p3 c3 (some (KUnit.mk nB
         (KTarget.mk aH p2 c2 (some (KUnit.mk nA
           (KTarget.mk rH p1 c1 none)))))))] ∧
    (buildChain
        (KUnit.mk nF (KTarget.mk bH p3 c3 (some (KUnit.mk nB
          (KTarget.mk aH p2 c2 (some (KUnit.mk nA
            (KTarget.mk rH p1 c1 none))))))))).length = 3 ∧
    generate_solution
        (KUnit.mk nF (KTarget.mk bH p3 c3 (some (KUnit.mk nB
          (KTarget.mk aH p2 c2 (some (KUnit.mk nA
            (KTarget.mk rH p1 c1 none)))))))) flag =
      [SolLine.step nA rH, SolLine.step nB aH, SolLine.step nF bH,
       SolLine.flagLine flag] :=
  ⟨rfl, rfl, rfl⟩

/-- C3 counterexample: with every worker waiting at the barrier but one
case still in the work queue, update_prompt reports waiting although the
claimed condition (waiting-count equals pool size AND queue empty) is
false; the prompt state is not equivalent to the claimed conjunction. -/
theorem update_prompt_ignores_queue_cex :
    ¬ (update_prompt_state { n_waiting := 2, nthreads := 2, qsize := 1 } =
        PromptState.waiting ↔
       spec_idle { n_waiting := 2, nthreads := 2, qsize := 1 } = true) := by
  decide

/-- C3 (amended): the prompt reports waiting if and only if the barrier
waiting-count equals the pool size; the work queue size is not consulted
for the waiting/running state (it is only displayed separately). -/
theorem update_prompt_state_waiting_iff (m : ManagerView) :
    update_prompt_state m = PromptState.waiting ↔ m.n_waiting = m.nthreads := by
  unfold update_prompt_state
  split <;> simp_all

/-- C4: in the artifact-writing branch (decode succeeds, result not
printable, good file magic), when the write to the artifact handle raises,
the handle is left open: the artifact was created, handle.close() was never
reached, and the exception escapes evaluate. -/
theorem base85_artifact_handle_leak :
    (base85_evaluate
      { b85decode := fun _ => some [0], isprintable := fun _ => false,
        is_good_magic := fun _ => true, writeFails := true }
      [65]).artifactCreated = true ∧
    (base85_evaluate
      { b85decode := fun _ => some [0], isprintable := fun _ => false,
        is_good_magic := fun _ => true, writeFails := true }
      [65]).handleClosed = false ∧
    (base85_evaluate
      { b85decode := fun _ => some [0], isprintable := fun _ => false,
        is_good_magic := fun _ => true, writeFails := true }
      [65]).raised = true :=
  ⟨rfl, rfl, rfl⟩

/-- C5: the base85 unit constructor raises NotApplicable (with the message
"not printable data") exactly on non-printable targets, and succeeds
exactly on printable ones. -/
theorem base85_init_not_applicable_iff (t : KTarget) :
    (base85_init t = InitResult.notApplicable "not printable data" ↔
      t.is_printable = false) ∧
    (base85_init t = InitResult.ok ↔ t.is_printable = true) := by
  unfold base85_init
  cases h : t.is_printable <;> simp

/-- C6: when base85 decoding of the raw bytes raises (UnicodeDecodeError,
binascii.Error or ValueError), evaluate returns normally with no action:
no results, no recursion, no artifact, no escaping exception. -/
theorem base85_evaluate_decode_failure (env : Base85Env) (raw : List Nat)
    (h : env.b85decode raw = none) :
    base85_evaluate env raw =
      { results := [], recursions := [], artifactCreated := false,
        handleClosed := false, raised := false } := by
  unfold base85_evaluate
  rw [h]

/-- Witness for C6 at a concrete environment whose decode always raises. -/
theorem base85_evaluate_decode_failure_w :
    ({ b85decode := fun _ => none, isprintable := fun _ => false,
       is_good_magic := fun _ => false, writeFails := false } :
       Base85Env).b85decode [1] = none ∧
    base85_evaluate
      { b85decode := fun _ => none, isprintable := fun _ => false,
        is_good_magic := fun _ => false, writeFails := false } [1] =
      { results := [], recursions := [], artifactCreated := false,
        handleClosed := false, raised := false } :=
  ⟨rfl, base85_evaluate_decode_failure _ _ rfl⟩

/-- C7: when the raw bytes decode to a printable byte sequence, evaluate
recurses on exactly the decoded bytes, reports exactly the decoded bytes as
a result, and writes no artifact. -/
theorem base85_evaluate_printable (env : Base85Env) (raw r : List Nat)
    (h1 : env.b85decode raw = some r) (h2 : env.isprintable r = true) :
    base85_evaluate env raw =
      { results := [r], recursions := [RecurseArg.bytes r],
        artifactCreated := false, handleClosed := false, raised := false } := by
  unfold base85_evaluate
  rw [h1]
  simp [h2]

/-- Witness for C7 at a concrete environment decoding to printable bytes. -/
theorem base85_evaluate_printable_w :
    ({ b85decode := fun _ => some [104, 105], isprintable := fun _ => true,
       is_good_magic := fun _ => false, writeFails := false } :
       Base85Env).b85decode [1] = some [104, 105] ∧
    ({ b85decode := fun _ => some [104, 105], isprintable := fun _ => true,
       is_good_magic := fun _ => false, writeFails := false } :
       Base85Env).isprintable [104, 105] = true ∧
    base85_evaluate
      { b85decode := fun _ => some [104, 105], isprintable := fun _ => true,
        is_good_magic := fun _ => false, writeFails := false } [1] =
      { results := [[104, 105]],
        recursions := [RecurseArg.bytes [104, 105]],
        artifactCreated := false, handleClosed := false, raised := false } :=
  ⟨rfl, rfl, base85_evaluate_printable _ _ _ rfl rfl⟩

/-- C8: for a flag whose producing unit runs on a root target (no parent),
the reconstruction does not fail and produces a length-one chain: a single
(procedure, target) entry followed by the flag value. -/
theorem generate_solution_root (u : KUnit) (flag : String)
    (h : u.target.parent = none) :
    buildChain u = [u] ∧
    generate_solution u flag =
      [SolLine.step u.name u.target.hash, SolLine.flagLine flag] := by
  obtain ⟨n, t⟩ := u
  obtain ⟨hsh, p, c, par⟩ := t
  have hpar : par = none := h
  subst hpar
  exact ⟨rfl, rfl⟩

/-- Witness for C8 at a concrete parentless unit. -/
theorem generate_solution_root_w :
    (KUnit.mk "unit0" (KTarget.mk "h0" true false none)).target.parent =
      none ∧
    buildChain (KUnit.mk "unit0" (KTarget.mk "h0" true false none)) =
      [KUnit.mk "unit0" (KTarget.mk "h0" true false none)] ∧
    generate_solution (KUnit.mk "unit0" (KTarget.mk "h0" true false none))
        "FLAG" =
      [SolLine.step "unit0" "h0", SolLine.flagLine "FLAG"] :=
  ⟨rfl,
   (generate_solution_root (KUnit.mk "unit0" (KTarget.mk "h0" true false none))
      "FLAG" rfl).1,
   (generate_solution_root (KUnit.mk "unit0" (KTarget.mk "h0" true false none))
      "FLAG" rfl).2⟩

/-- C9: the target stop operation is monotone on the completed flag: a
target already completed stays completed and is in fact untouched, and the
only change the operation ever makes to a target is the single transition
of completed from false to true. -/
theorem target_stop_monotone (hs : List String) (ts : List KTarget) (i : Nat)
    (t t2 : KTarget) (h1 : ts[i]? = some t)
    (h2 : (target_stop hs ts)[i]? = some t2) :
    (t.completed = true → t2.completed = true) ∧
    (t2 = t ∨ (t.completed = false ∧ t2.completed = true)) := by
  rw [target_stop_get, h1, Option.map_some'] at h2
  have ht2 : t2 = stopFold hs t := by
    injection h2 with h2
    exact h2.symm
  subst ht2
  rcases stopFold_char hs t with hEq | hCh
  · rw [hEq]
    exact ⟨fun hc => hc, Or.inl rfl⟩
  · exact ⟨fun _ => hCh.2, Or.inr hCh⟩

/-- Witness for C9: stopping a single uncompleted target flips its
completed flag to true. -/
theorem target_stop_monotone_w :
    (([KTarget.mk "a" true false none] : List KTarget)[0]? =
      some (KTarget.mk "a" true false none)) ∧
    ((target_stop ["a"] [KTarget.mk "a" true false none])[0]? =
      some (KTarget.mk "a" true true none)) ∧
    (((KTarget.mk "a" true false none).completed = true →
        (KTarget.mk "a" true true none).completed = true) ∧
     (KTarget.mk "a" true true none = KTarget.mk "a" true false none ∨
      ((KTarget.mk "a" true false none).completed = false ∧
       (KTarget.mk "a" true true none).completed = true))) :=
  ⟨rfl, rfl, target_stop_monotone ["a"] [KTarget.mk "a" true false none] 0
    (KTarget.mk "a" true false none) (KTarget.mk "a" true true none) rfl rfl⟩

/-- C10: a filesystem event delivered to the monitoring handler queues a
new target exactly when it is a file-creation event, with the created path;
directory creation, modification, deletion and move events queue nothing. -/
theorem dispatch_queues_only_file_created (e : FSEvent) :
    queuedTargets (dispatchEvent e) =
      (match e with
       | FSEvent.fileCreated p => [p]
       | _ => []) := by
  cases e <;> rfl

end Katana
